import Mathlib

/-!
Verification of the pdf-forge conversion core.

Shallow embedding of the Go sources:
  * internal/models/models.go   — page sizes, margins, options, status/metrics records
  * internal/converters/chrome.go — ChromeConverter state, admission gate, metrics
    aggregator, and the conversion operations ConvertHTML, ConvertURL,
    ConvertMarkdown, ConvertImage, ConvertImages, plus DecodeBase64/findComma.

Modelling conventions:
  * Go float64 option values (page dimensions, margins, scale) are embedded as
    rationals; the code only compares them against exact constants and passes
    them through to the render engine, so no rounding behaviour is involved.
  * Go int64 metric counters are embedded as unbounded integers; two-complement
    wraparound of int64 is outside the model.
  * The external chromedp run (navigation, content injection, PDF emission) is
    an oracle value of type RunResult: either the emitted PDF bytes or an
    error.  In the generated cdproto bindings PrintToPDF().Do returns nil data
    together with a non-nil error, which is what the Except-style oracle
    reflects.
  * A conversion operation is a state transformer: it receives the converter
    state and the oracle outcome and returns the new state, the returned byte
    payload (none = nil slice), the returned error (none = nil error), the
    sequence of admission-gate events it performed, and the render task it
    submitted (deadline, content, print parameters).
  * Go strings here are ASCII (base64 data, labels), so byte indexing in the
    source coincides with character indexing in the model.
-/

namespace PdfForge

/-- models.go GetDimensions result: width and height in inches. -/
structure PageDimensions where
  width : ℚ
  height : ℚ
deriving DecidableEq, Repr

/-- models.go PageSize.GetDimensions: lookup table for named page sizes,
defaulting to A4 dimensions. PageSize is a Go string type, embedded as String. -/
def GetDimensions (p : String) : PageDimensions :=
  if p = "A4" then ⟨827/100, 1169/100⟩
  else if p = "A3" then ⟨1169/100, 1654/100⟩
  else if p = "Letter" then ⟨85/10, 11⟩
  else if p = "Legal" then ⟨85/10, 14⟩
  else if p = "Tabloid" then ⟨11, 17⟩
  else ⟨827/100, 1169/100⟩

/-- models.go Margins (inches). -/
structure Margins where
  top : ℚ
  bottom : ℚ
  left : ℚ
  right : ℚ
deriving DecidableEq, Repr

/-- models.go DefaultMargins. -/
def DefaultMargins : Margins := ⟨4/10, 4/10, 4/10, 4/10⟩

/-- models.go PDFOptions, restricted to the fields the conversion core reads.
Orientation is a Go string type ("portrait" / "landscape"). -/
structure PDFOptions where
  pageSize : String
  orientation : String
  margins : Option Margins
  printBackground : Bool
  scale : ℚ
deriving DecidableEq, Repr

/-- models.go DefaultOptions. -/
def DefaultOptions : PDFOptions :=
  { pageSize := "A4"
    orientation := "portrait"
    margins := some ⟨4/10, 4/10, 4/10, 4/10⟩
    printBackground := true
    scale := 1 }

/-- models.go WorkerStatus (Go int fields). -/
structure WorkerStatus where
  max : Int
  available : Int
  inUse : Int
deriving DecidableEq, Repr

/-- models.go ConversionMetrics; the ByType map is embedded as an association
list, matching the sync.Map key/value pairs. -/
structure ConversionMetrics where
  total : Int
  successful : Int
  failed : Int
  byType : List (String × Int)
deriving DecidableEq, Repr

/-- chrome.go ChromeConverter: the worker-pool channel is represented by its
occupancy (number of buffered tokens) together with its capacity; the metric
fields mirror totalConversions / successfulConversions / failedConversions /
conversionsByType. -/
structure ConverterState where
  maxWorkers : Nat
  poolOccupancy : Nat
  totalConversions : Int
  successfulConversions : Int
  failedConversions : Int
  conversionsByType : List (String × Int)
deriving DecidableEq, Repr

/-- chrome.go NewChromeConverter: empty pool, zeroed metrics. -/
def NewChromeConverter (maxWorkers : Nat) : ConverterState :=
  { maxWorkers := maxWorkers
    poolOccupancy := 0
    totalConversions := 0
    successfulConversions := 0
    failedConversions := 0
    conversionsByType := [] }

/-- chrome.go GetWorkerStatus: inUse := len(workerPool); Available computed
from the current occupancy, not cached. -/
def GetWorkerStatus (c : ConverterState) : WorkerStatus :=
  { max := (c.maxWorkers : Int)
    available := (c.maxWorkers : Int) - (c.poolOccupancy : Int)
    inUse := (c.poolOccupancy : Int) }

/-- chrome.go GetMetrics: snapshot of the four counters. -/
def GetMetrics (c : ConverterState) : ConversionMetrics :=
  { total := c.totalConversions
    successful := c.successfulConversions
    failed := c.failedConversions
    byType := c.conversionsByType }

/-- Association-list lookup for the per-type counters; a missing key reads as
0, matching LoadOrStore(convType, int64(0)). -/
def lookupType : List (String × Int) → String → Int
  | [], _ => 0
  | (k, v) :: rest, t => if k = t then v else lookupType rest t

/-- chrome.go incrementMetric, per-type part: the LoadOrStore / CompareAndSwap
loop inserts the counter at 0 on first use and then adds 1 to it. -/
def bumpType : List (String × Int) → String → List (String × Int)
  | [], t => [(t, 1)]
  | (k, v) :: rest, t => if k = t then (k, v + 1) :: rest else (k, v) :: bumpType rest t

/-- chrome.go incrementMetric: total increases by 1, exactly one of
successful / failed increases by 1 according to success, and the per-type
counter for convType increases by 1. -/
def incrementMetric (c : ConverterState) (convType : String) (success : Bool) : ConverterState :=
  { c with
    totalConversions := c.totalConversions + 1
    successfulConversions :=
      if success then c.successfulConversions + 1 else c.successfulConversions
    failedConversions :=
      if success then c.failedConversions else c.failedConversions + 1
    conversionsByType := bumpType c.conversionsByType convType }

/-- chrome.go acquireWorker (c.workerPool <- struct\x7b\x7d\x7b\x7d): one more
token buffered in the admission channel. -/
def acquireWorker (c : ConverterState) : ConverterState :=
  { c with poolOccupancy := c.poolOccupancy + 1 }

/-- chrome.go releaseWorker (<-c.workerPool): one token removed. -/
def releaseWorker (c : ConverterState) : ConverterState :=
  { c with poolOccupancy := c.poolOccupancy - 1 }

/-- Outcome of the external chromedp.Run pipeline for one request: either the
emitted PDF bytes or the first error. -/
inductive RunResult where
  | ok (pdf : List Nat)
  | err (msg : String)
deriving DecidableEq, Repr

/-- err == nil in the Go sources. -/
def RunResult.isOk : RunResult → Bool
  | .ok _ => true
  | .err _ => false

/-- The parameters a conversion passes to page.PrintToPDF(); scale is none
when the operation does not call WithScale. -/
structure PrintParams where
  paperWidth : ℚ
  paperHeight : ℚ
  marginTop : ℚ
  marginBottom : ℚ
  marginLeft : ℚ
  marginRight : ℚ
  printBackground : Bool
  scale : Option ℚ
deriving DecidableEq, Repr

/-- The render task a conversion submits: the context.WithTimeout deadline in
seconds, the content (inline HTML or target URL), and the print parameters. -/
structure RenderTask where
  timeoutSeconds : Nat
  content : String
  params : PrintParams
deriving DecidableEq, Repr

/-- Admission-gate events performed by one conversion call. -/
inductive GateEvent where
  | acquire
  | release
deriving DecidableEq, Repr

/-- Everything observable about one conversion call: the post state, the
returned byte payload (none = nil), the returned error (none = nil), the gate
events in order, and the submitted render task. -/
structure ConvOutcome where
  state : ConverterState
  pdf : Option (List Nat)
  error : Option String
  events : List GateEvent
  task : RenderTask
deriving DecidableEq, Repr

/-- chrome.go ConvertHTML lines 139-146: A4 dimensions by default, Letter when
opts.PageSize == "Letter", swap when opts.Orientation == "landscape" (each
guarded by opts != nil). -/
def convertHTMLDims (opts : Option PDFOptions) : ℚ × ℚ :=
  let wh : ℚ × ℚ := (827/100, 1169/100)
  let wh : ℚ × ℚ :=
    match opts with
    | some o => if o.pageSize = "Letter" then ((85 : ℚ)/10, (11 : ℚ)) else wh
    | none => wh
  match opts with
  | some o => if o.orientation = "landscape" then (wh.2, wh.1) else wh
  | none => wh

/-- chrome.go ConvertHTML lines 166-180: margins from opts when both opts and
opts.Margins are non-nil, otherwise explicitly zero. -/
def convertHTMLMargins (opts : Option PDFOptions) : Margins :=
  match opts with
  | some o =>
    match o.margins with
    | some ms => ms
    | none => ⟨0, 0, 0, 0⟩
  | none => ⟨0, 0, 0, 0⟩

/-- chrome.go ConvertHTML: acquire a gate slot, run the pipeline under a
60-second deadline with the computed print parameters, release the slot, and
return (buf, err) unchanged.  The source refers to the admission channel as
c.semaphore in this function; it is the same counting-semaphore channel the
Admission Gate provides.  No metric is incremented on this path. -/
def ConvertHTML (c : ConverterState) (html : String) (opts : Option PDFOptions)
    (r : RunResult) : ConvOutcome :=
  let c1 := acquireWorker c
  let wh := convertHTMLDims opts
  let m := convertHTMLMargins opts
  let params : PrintParams :=
    { paperWidth := wh.1
      paperHeight := wh.2
      marginTop := m.top
      marginBottom := m.bottom
      marginLeft := m.left
      marginRight := m.right
      printBackground := true
      scale := none }
  let task : RenderTask := { timeoutSeconds := 60, content := html, params := params }
  match r with
  | .ok b =>
    { state := releaseWorker c1, pdf := some b, error := none
      events := [.acquire, .release], task := task }
  | .err msg =>
    { state := releaseWorker c1, pdf := none, error := some msg
      events := [.acquire, .release], task := task }

/-- chrome.go ConvertURL lines 219-222: values outside the guard are reset to
1.0. -/
def clampScale (scale : ℚ) : ℚ :=
  if scale ≤ 0 ∨ 2 < scale then 1 else scale

/-- chrome.go ConvertURL lines 209-212 (and ConvertImages lines 326-329):
named page-size lookup with landscape swap. -/
def effectiveDims (pageSize orientation : String) : PageDimensions :=
  let dims := GetDimensions pageSize
  if orientation = "landscape" then ⟨dims.height, dims.width⟩ else dims

/-- chrome.go ConvertURL: acquire a slot, default the options when nil,
compute dimensions / margins / clamped scale, run under a 120-second deadline,
increment the "url" metric by err == nil, and return nil bytes with a wrapped
error on failure or the PDF bytes on success. -/
def ConvertURL (c : ConverterState) (url : String) (optsIn : Option PDFOptions)
    (r : RunResult) : ConvOutcome :=
  let c1 := acquireWorker c
  let opts := optsIn.getD DefaultOptions
  let dims := effectiveDims opts.pageSize opts.orientation
  let margins := (opts.margins).getD DefaultMargins
  let scale := clampScale opts.scale
  let params : PrintParams :=
    { paperWidth := dims.width
      paperHeight := dims.height
      marginTop := margins.top
      marginBottom := margins.bottom
      marginLeft := margins.left
      marginRight := margins.right
      printBackground := opts.printBackground
      scale := some scale }
  let task : RenderTask := { timeoutSeconds := 120, content := url, params := params }
  match r with
  | .ok b =>
    { state := releaseWorker (incrementMetric c1 "url" true), pdf := some b, error := none
      events := [.acquire, .release], task := task }
  | .err msg =>
    { state := releaseWorker (incrementMetric c1 "url" false), pdf := none
      error := some ("URL conversion failed: " ++ msg)
      events := [.acquire, .release], task := task }

/-- chrome.go ConvertImages lines 277-289: MIME detection from the first
base64 character, applied only when len(img) > 30, defaulting to JPEG. -/
def detectMime (img : String) : String :=
  if 30 < img.length then
    match img.data with
    | [] => "image/jpeg"
    | ch :: _ =>
      if ch = '/' then "image/jpeg"
      else if ch = 'i' then "image/png"
      else if ch = 'R' then "image/gif"
      else if ch = 'U' then "image/webp"
      else "image/jpeg"
  else "image/jpeg"

/-- chrome.go ConvertImages lines 296-300: one full-page flex div per image. -/
def imageDiv (pageBreak mimeType img : String) : String :=
  "\n\t\t\t<div style=\"" ++ pageBreak ++
    " display:flex; justify-content:center; align-items:center; height:100vh; width:100%;\">\n" ++
    "\t\t\t\t<img src=\"data:" ++ mimeType ++ ";base64," ++ img ++
    "\" style=\"max-width:100%; max-height:100%; object-fit:contain;\" />\n\t\t\t</div>\n\t\t"

/-- chrome.go ConvertImages lines 276-301: the loop body, with a page break
before every image after the first. -/
def buildImagesHTML : List String → Nat → String
  | [], _ => ""
  | img :: rest, i =>
    let pageBreak := if 0 < i then "page-break-before: always;" else ""
    imageDiv pageBreak (detectMime img) img ++ buildImagesHTML rest (i + 1)

/-- chrome.go ConvertImages lines 303-316: the document wrapper around the
image divs (CSS braces written as \x7b / \x7d escapes). -/
def imagesDocumentHTML (imagesBase64 : List String) : String :=
  "\n\t\t<!DOCTYPE html>\n\t\t<html>\n\t\t<head>\n\t\t\t<meta charset=\"UTF-8\">\n" ++
    "\t\t\t<style>\n\t\t\t\t* \x7b margin: 0; padding: 0; box-sizing: border-box; \x7d\n" ++
    "\t\t\t\tbody \x7b font-family: Arial, sans-serif; \x7d\n" ++
    "\t\t\t\t@page \x7b margin: 0; \x7d\n\t\t\t</style>\n\t\t</head>\n\t\t<body>" ++
    buildImagesHTML imagesBase64 0 ++ "</body>\n\t\t</html>\n\t"

/-- chrome.go ConvertImages: acquire a slot, default the options, build the
images document, run under a 120-second deadline with zero margins and
background printing, increment the "images" metric by err == nil, and return
nil bytes with a wrapped error on failure or the PDF bytes on success. -/
def ConvertImages (c : ConverterState) (imagesBase64 : List String)
    (optsIn : Option PDFOptions) (r : RunResult) : ConvOutcome :=
  let c1 := acquireWorker c
  let opts := optsIn.getD DefaultOptions
  let html := imagesDocumentHTML imagesBase64
  let dims := effectiveDims opts.pageSize opts.orientation
  let params : PrintParams :=
    { paperWidth := dims.width
      paperHeight := dims.height
      marginTop := 0
      marginBottom := 0
      marginLeft := 0
      marginRight := 0
      printBackground := true
      scale := none }
  let task : RenderTask := { timeoutSeconds := 120, content := html, params := params }
  match r with
  | .ok b =>
    { state := releaseWorker (incrementMetric c1 "images" true), pdf := some b, error := none
      events := [.acquire, .release], task := task }
  | .err msg =>
    { state := releaseWorker (incrementMetric c1 "images" false), pdf := none
      error := some ("image conversion failed: " ++ msg)
      events := [.acquire, .release], task := task }

/-- chrome.go ConvertImage: delegates to ConvertImages with a one-element
slice. -/
def ConvertImage (c : ConverterState) (imageBase64 : String) (opts : Option PDFOptions)
    (r : RunResult) : ConvOutcome :=
  ConvertImages c [imageBase64] opts r

/-- chrome.go markdownToHTML: the markdown text is substituted verbatim into a
styled HTML shell (CSS braces written as \x7b / \x7d, quote marks as \x27). -/
def markdownToHTML (md : String) : String :=
  "\n\t\t<!DOCTYPE html>\n\t\t<html>\n\t\t<head>\n\t\t\t<meta charset=\"UTF-8\">\n\t\t\t<style>\n" ++
    "\t\t\t\tbody \x7b\n\t\t\t\t\tfont-family: -apple-system, BlinkMacSystemFont, \x27Segoe UI\x27, Roboto, Oxygen, Ubuntu, sans-serif;\n" ++
    "\t\t\t\t\tline-height: 1.6;\n\t\t\t\t\tmax-width: 800px;\n\t\t\t\t\tmargin: 0 auto;\n" ++
    "\t\t\t\t\tpadding: 20px;\n\t\t\t\t\tcolor: #333;\n\t\t\t\t\x7d\n" ++
    "\t\t\t\th1, h2, h3, h4, h5, h6 \x7b margin-top: 1.5em; margin-bottom: 0.5em; \x7d\n" ++
    "\t\t\t\th1 \x7b font-size: 2em; border-bottom: 1px solid #eee; padding-bottom: 0.3em; \x7d\n" ++
    "\t\t\t\th2 \x7b font-size: 1.5em; border-bottom: 1px solid #eee; padding-bottom: 0.3em; \x7d\n" ++
    "\t\t\t\tcode \x7b background: #f4f4f4; padding: 2px 6px; border-radius: 3px; font-family: \x27SF Mono\x27, Monaco, monospace; \x7d\n" ++
    "\t\t\t\tpre \x7b background: #f4f4f4; padding: 16px; border-radius: 6px; overflow-x: auto; \x7d\n" ++
    "\t\t\t\tpre code \x7b background: none; padding: 0; \x7d\n" ++
    "\t\t\t\tblockquote \x7b border-left: 4px solid #ddd; margin: 0; padding-left: 16px; color: #666; \x7d\n" ++
    "\t\t\t\ttable \x7b border-collapse: collapse; width: 100%; margin: 1em 0; \x7d\n" ++
    "\t\t\t\tth, td \x7b border: 1px solid #ddd; padding: 8px 12px; text-align: left; \x7d\n" ++
    "\t\t\t\tth \x7b background: #f4f4f4; \x7d\n" ++
    "\t\t\t\timg \x7b max-width: 100%; \x7d\n" ++
    "\t\t\t\ta \x7b color: #0066cc; \x7d\n" ++
    "\t\t\t</style>\n\t\t</head>\n\t\t<body>\n\t\t\t<div class=\"markdown-body\">" ++ md ++
    "</div>\n\t\t</body>\n\t\t</html>\n\t"

/-- chrome.go ConvertMarkdown: converts the markdown to styled HTML and
delegates to ConvertHTML. -/
def ConvertMarkdown (c : ConverterState) (markdown : String) (opts : Option PDFOptions)
    (r : RunResult) : ConvOutcome :=
  ConvertHTML c (markdownToHTML markdown) opts r

/-- One conversion request of any of the five operations, with its oracle
outcome. -/
inductive ConvCall where
  | html (content : String) (opts : Option PDFOptions) (r : RunResult)
  | url (target : String) (opts : Option PDFOptions) (r : RunResult)
  | markdown (content : String) (opts : Option PDFOptions) (r : RunResult)
  | image (img : String) (opts : Option PDFOptions) (r : RunResult)
  | images (imgs : List String) (opts : Option PDFOptions) (r : RunResult)

/-- Dispatch one conversion call against the converter state. -/
def runCall (c : ConverterState) : ConvCall → ConvOutcome
  | .html content opts r => ConvertHTML c content opts r
  | .url target opts r => ConvertURL c target opts r
  | .markdown content opts r => ConvertMarkdown c content opts r
  | .image img opts r => ConvertImage c img opts r
  | .images imgs opts r => ConvertImages c imgs opts r

/-- A batch of conversion calls executed in sequence. -/
def runBatch (c : ConverterState) (calls : List ConvCall) : ConverterState :=
  calls.foldl (fun st call => (runCall st call).state) c

/-- chrome.go findComma: index of the first comma (byte index in Go, character
index here over ASCII input), -1 when absent. -/
def findCommaAux : List Char → Int → Int
  | [], _ => -1
  | ch :: rest, i => if ch = ',' then i else findCommaAux rest (i + 1)

/-- chrome.go findComma on a Go string. -/
def findComma (s : String) : Int :=
  findCommaAux s.data 0

/-- Go string slicing s[:n]: panics (none) when n exceeds the length. -/
def goStringSliceTo (s : String) (n : Nat) : Option String :=
  if n ≤ s.length then some (String.mk (s.data.take n)) else none

/-- Value of one character of the standard base64 alphabet. -/
def base64Val (ch : Char) : Option Nat :=
  if 'A' ≤ ch ∧ ch ≤ 'Z' then some (ch.toNat - 65)
  else if 'a' ≤ ch ∧ ch ≤ 'z' then some (ch.toNat - 97 + 26)
  else if '0' ≤ ch ∧ ch ≤ '9' then some (ch.toNat - 48 + 52)
  else if ch = '+' then some 62
  else if ch = '/' then some 63
  else none

/-- encoding/base64 StdEncoding.DecodeString: strict RFC 4648 decoding, four
characters to three bytes, padding only at the end, none on corrupt input. -/
def decodeB64 : List Char → Option (List Nat)
  | [] => some []
  | [a, b, '=', '='] => do
    let va ← base64Val a
    let vb ← base64Val b
    some [va * 4 + vb / 16]
  | [a, b, ch, '='] => do
    let va ← base64Val a
    let vb ← base64Val b
    let vc ← base64Val ch
    some [va * 4 + vb / 16, (vb % 16) * 16 + vc / 4]
  | a :: b :: ch :: d :: rest => do
    let va ← base64Val a
    let vb ← base64Val b
    let vc ← base64Val ch
    let vd ← base64Val d
    let tail ← decodeB64 rest
    some ([va * 4 + vb / 16, (vb % 16) * 16 + vc / 4, (vc % 4) * 64 + vd] ++ tail)
  | _ => none

/-- chrome.go DecodeBase64: when len(encoded) > len("data:") the code takes
encoded[:100] before scanning for the data-URL comma — a Go slice expression
that panics when the string is shorter than 100 bytes.  The outer none models
that runtime panic; the inner Except is the ordinary decode result. -/
def DecodeBase64 (encoded : String) : Option (Except String (List Nat)) :=
  let stripped : Option String :=
    if 5 < encoded.length then
      match goStringSliceTo encoded 100 with
      | none => none
      | some pre =>
        let commaIdx := findComma pre
        if 0 < commaIdx then
          some (String.mk (encoded.data.drop (commaIdx.toNat + 1)))
        else
          some encoded
    else
      some encoded
  match stripped with
  | none => none
  | some e =>
    match decodeB64 e.data with
    | some bytes => some (Except.ok bytes)
    | none => some (Except.error "illegal base64 data")

/-! ## Helper lemmas -/

theorem runCall_pool (c : ConverterState) (call : ConvCall) :
    (runCall c call).state.poolOccupancy = c.poolOccupancy ∧
    (runCall c call).state.maxWorkers = c.maxWorkers ∧
    (runCall c call).events = [GateEvent.acquire, GateEvent.release] := by
  cases call with
  | html s o r =>
    cases r <;> simp [runCall, ConvertHTML, acquireWorker, releaseWorker]
  | url s o r =>
    cases r <;> simp [runCall, ConvertURL, acquireWorker, releaseWorker, incrementMetric]
  | markdown s o r =>
    cases r <;> simp [runCall, ConvertMarkdown, ConvertHTML, acquireWorker, releaseWorker]
  | image s o r =>
    cases r <;>
      simp [runCall, ConvertImage, ConvertImages, acquireWorker, releaseWorker, incrementMetric]
  | images s o r =>
    cases r <;> simp [runCall, ConvertImages, acquireWorker, releaseWorker, incrementMetric]

theorem runBatch_pool (calls : List ConvCall) (c : ConverterState) :
    (runBatch c calls).poolOccupancy = c.poolOccupancy ∧
    (runBatch c calls).maxWorkers = c.maxWorkers := by
  induction calls generalizing c with
  | nil => exact ⟨rfl, rfl⟩
  | cons call rest ih =>
    have hstep : runBatch c (call :: rest) = runBatch (runCall c call).state rest := rfl
    have h := runCall_pool c call
    rw [hstep]
    exact ⟨((ih (runCall c call).state).1).trans h.1, ((ih (runCall c call).state).2).trans h.2.1⟩

theorem lookupType_bumpType_self (m : List (String × Int)) (t : String) :
    lookupType (bumpType m t) t = lookupType m t + 1 := by
  induction m with
  | nil => simp [bumpType, lookupType]
  | cons kv rest ih =>
    obtain ⟨k, v⟩ := kv
    by_cases hk : k = t
    · simp [bumpType, lookupType, hk]
    · simp [bumpType, lookupType, hk, ih]

theorem lookupType_bumpType_ne (m : List (String × Int)) (t u : String) (h : u ≠ t) :
    lookupType (bumpType m t) u = lookupType m u := by
  induction m with
  | nil => simp [bumpType, lookupType, Ne.symm h]
  | cons kv rest ih =>
    obtain ⟨k, v⟩ := kv
    by_cases hk : k = t
    · subst hk
      have : k ≠ u := Ne.symm h
      simp [bumpType, lookupType, this]
    · simp [bumpType, lookupType, hk, ih]

/-! ## Claim theorems -/

/-- Claim C1: every conversion operation acquires exactly one admission slot
and releases exactly one, on success and on error alike, so the pool occupancy
after any call equals the occupancy before it, and after any batch of calls
starting from a fresh converter the occupancy is back to 0 and GetWorkerStatus
reports Available = Max. -/
theorem slot_conservation :
    (∀ (c : ConverterState) (call : ConvCall),
      (runCall c call).state.poolOccupancy = c.poolOccupancy ∧
      (runCall c call).events = [GateEvent.acquire, GateEvent.release]) ∧
    (∀ (w : Nat) (calls : List ConvCall),
      (runBatch (NewChromeConverter w) calls).poolOccupancy = 0 ∧
      GetWorkerStatus (runBatch (NewChromeConverter w) calls) =
        { max := (w : Int), available := (w : Int), inUse := 0 }) := by
  constructor
  · intro c call
    exact ⟨(runCall_pool c call).1, (runCall_pool c call).2.2⟩
  · intro w calls
    have h := runBatch_pool calls (NewChromeConverter w)
    have hp : (runBatch (NewChromeConverter w) calls).poolOccupancy = 0 := h.1
    have hm : (runBatch (NewChromeConverter w) calls).maxWorkers = w := h.2
    refine ⟨hp, ?_⟩
    simp [GetWorkerStatus, hp, hm]

/-- Claim C7: for every conversion call, a non-nil error comes with a nil PDF
payload — equivalently, every outcome has a nil error or a nil payload, so no
partial output is ever returned alongside an error. -/
theorem no_output_on_error :
    ∀ (c : ConverterState) (call : ConvCall),
      (runCall c call).error = none ∨ (runCall c call).pdf = none := by
  intro c call
  cases call with
  | html s o r => cases r <;> simp [runCall, ConvertHTML]
  | url s o r => cases r <;> simp [runCall, ConvertURL]
  | markdown s o r => cases r <;> simp [runCall, ConvertMarkdown, ConvertHTML]
  | image s o r => cases r <;> simp [runCall, ConvertImage, ConvertImages]
  | images s o r => cases r <;> simp [runCall, ConvertImages]

/-- Claim C8: for every pool state holding k ≤ maxWorkers slots,
GetWorkerStatus reads the current occupancy and reports Max = maxWorkers,
InUse = k, Available = maxWorkers - k, with Available nonnegative and
InUse + Available = Max. -/
theorem worker_status_computed (c : ConverterState)
    (h : c.poolOccupancy ≤ c.maxWorkers) :
    (GetWorkerStatus c).max = (c.maxWorkers : Int) ∧
    (GetWorkerStatus c).inUse = (c.poolOccupancy : Int) ∧
    (GetWorkerStatus c).available = (c.maxWorkers : Int) - (c.poolOccupancy : Int) ∧
    0 ≤ (GetWorkerStatus c).available ∧
    (GetWorkerStatus c).inUse + (GetWorkerStatus c).available = (GetWorkerStatus c).max := by
  refine ⟨rfl, rfl, rfl, ?_, ?_⟩
  · simp only [GetWorkerStatus, sub_nonneg]
    exact_mod_cast h
  · simp only [GetWorkerStatus]
    ring

/-- Witness for worker_status_computed at a converter with 4 workers and one
held slot. -/
theorem worker_status_computed_witness :
    0 ≤ (GetWorkerStatus { NewChromeConverter 4 with poolOccupancy := 1 }).available ∧
    (GetWorkerStatus { NewChromeConverter 4 with poolOccupancy := 1 }).inUse +
      (GetWorkerStatus { NewChromeConverter 4 with poolOccupancy := 1 }).available =
      (GetWorkerStatus { NewChromeConverter 4 with poolOccupancy := 1 }).max :=
  ⟨(worker_status_computed _ (by decide)).2.2.2.1,
   (worker_status_computed _ (by decide)).2.2.2.2⟩

/-- Claim C10: ConvertImage is exactly ConvertImages on the one-element list —
same state, payload, error, events and task — and its per-type metric goes to
the "images" counter, leaving the "image" counter untouched. -/
theorem convertImage_singleton :
    ∀ (c : ConverterState) (img : String) (opts : Option PDFOptions) (r : RunResult),
      ConvertImage c img opts r = ConvertImages c [img] opts r ∧
      lookupType (ConvertImage c img opts r).state.conversionsByType "images" =
        lookupType c.conversionsByType "images" + 1 ∧
      lookupType (ConvertImage c img opts r).state.conversionsByType "image" =
        lookupType c.conversionsByType "image" := by
  intro c img opts r
  have hne : ("image" : String) ≠ "images" := by decide
  refine ⟨rfl, ?_, ?_⟩ <;>
    cases r <;>
      simp [ConvertImage, ConvertImages, acquireWorker, releaseWorker, incrementMetric,
        lookupType_bumpType_self, lookupType_bumpType_ne _ _ _ hne]

/-- Sum of the per-type counters. -/
def sumByType (m : List (String × Int)) : Int := (m.map Prod.snd).sum

/-- A sequence of incrementMetric calls, each a (conversion type, success)
pair, applied in order. -/
def applyIncrements (c : ConverterState) (calls : List (String × Bool)) : ConverterState :=
  calls.foldl (fun st p => incrementMetric st p.1 p.2) c

theorem sumByType_bumpType (m : List (String × Int)) (t : String) :
    sumByType (bumpType m t) = sumByType m + 1 := by
  induction m with
  | nil => simp [bumpType, sumByType]
  | cons kv rest ih =>
    obtain ⟨k, v⟩ := kv
    by_cases hk : k = t
    · simp [bumpType, hk, sumByType]
      ring
    · simp [bumpType, hk, sumByType] at ih ⊢
      omega

theorem applyIncrements_counts (calls : List (String × Bool)) (c : ConverterState) :
    (applyIncrements c calls).totalConversions = c.totalConversions + (calls.length : Int) ∧
    (applyIncrements c calls).successfulConversions =
      c.successfulConversions + ((calls.filter (fun p => p.2)).length : Int) ∧
    (applyIncrements c calls).failedConversions =
      c.failedConversions + ((calls.filter (fun p => !p.2)).length : Int) ∧
    sumByType (applyIncrements c calls).conversionsByType =
      sumByType c.conversionsByType + (calls.length : Int) := by
  induction calls generalizing c with
  | nil => simp [applyIncrements]
  | cons p rest ih =>
    obtain ⟨t, success⟩ := p
    have hstep : applyIncrements c ((t, success) :: rest) =
        applyIncrements (incrementMetric c t success) rest := rfl
    have h := ih (incrementMetric c t success)
    rw [hstep]
    refine ⟨?_, ?_, ?_, ?_⟩
    · rw [h.1]
      simp [incrementMetric]
      ring
    · rw [h.2.1]
      cases success
      · simp [incrementMetric]
      · simp [incrementMetric]
        ring
    · rw [h.2.2.1]
      cases success
      · simp [incrementMetric]
        ring
      · simp [incrementMetric]
    · rw [h.2.2.2]
      simp [incrementMetric, sumByType_bumpType]
      ring

/-- Claim C3: one incrementMetric call adds exactly 1 to total, exactly 1 to
successful or failed according to the flag, and exactly 1 to the per-type
counter (which starts from 0 on first use); after any sequence of calls from a
fresh converter, GetMetrics reports total = number of calls, successful = the
number of successes, failed = the number of failures, and the per-type
counters sum to total. -/
theorem metrics_accounting :
    (∀ (c : ConverterState) (t : String) (success : Bool),
      (incrementMetric c t success).totalConversions = c.totalConversions + 1 ∧
      (incrementMetric c t success).successfulConversions =
        (if success then c.successfulConversions + 1 else c.successfulConversions) ∧
      (incrementMetric c t success).failedConversions =
        (if success then c.failedConversions else c.failedConversions + 1) ∧
      lookupType (incrementMetric c t success).conversionsByType t =
        lookupType c.conversionsByType t + 1) ∧
    (∀ (w : Nat) (calls : List (String × Bool)),
      (GetMetrics (applyIncrements (NewChromeConverter w) calls)).total =
        (calls.length : Int) ∧
      (GetMetrics (applyIncrements (NewChromeConverter w) calls)).successful =
        ((calls.filter (fun p => p.2)).length : Int) ∧
      (GetMetrics (applyIncrements (NewChromeConverter w) calls)).failed =
        ((calls.filter (fun p => !p.2)).length : Int) ∧
      sumByType (GetMetrics (applyIncrements (NewChromeConverter w) calls)).byType =
        (GetMetrics (applyIncrements (NewChromeConverter w) calls)).total) := by
  constructor
  · intro c t success
    refine ⟨rfl, rfl, rfl, ?_⟩
    simp [incrementMetric, lookupType_bumpType_self]
  · intro w calls
    have h := applyIncrements_counts calls (NewChromeConverter w)
    have h0 : sumByType (NewChromeConverter w).conversionsByType = 0 := rfl
    refine ⟨?_, ?_, ?_, ?_⟩
    · simpa [GetMetrics, NewChromeConverter] using h.1
    · simpa [GetMetrics, NewChromeConverter] using h.2.1
    · simpa [GetMetrics, NewChromeConverter] using h.2.2.1
    · simp only [GetMetrics]
      rw [h.2.2.2, h.1]
      simp [NewChromeConverter, sumByType]

/-- Claim C2 counterexample: a completed, successful ConvertHTML attempt
leaves every metric counter untouched — total stays 0 instead of rising to 1,
so ConvertHTML (and with it ConvertMarkdown) skips the metric increment the
claim requires. -/
theorem convertHTML_no_metric_cex :
    GetMetrics (ConvertHTML (NewChromeConverter 4) "<h1>Test</h1>" none
        (RunResult.ok [37, 80, 68, 70])).state = GetMetrics (NewChromeConverter 4) ∧
    (GetMetrics (ConvertHTML (NewChromeConverter 4) "<h1>Test</h1>" none
        (RunResult.ok [37, 80, 68, 70])).state).total = 0 := by
  constructor <;> rfl

/-- Claim C2 (amended): ConvertURL, ConvertImages and ConvertImage each update
the metrics exactly as one incrementMetric call with their type label ("url"
resp. "images") and the success of the attempt, on every outcome and before
returning; ConvertHTML and ConvertMarkdown leave the metrics unchanged. -/
theorem metrics_per_attempt :
    ∀ (c : ConverterState) (s : String) (imgs : List String) (opts : Option PDFOptions)
      (r : RunResult),
      GetMetrics (ConvertURL c s opts r).state = GetMetrics (incrementMetric c "url" r.isOk) ∧
      GetMetrics (ConvertImages c imgs opts r).state =
        GetMetrics (incrementMetric c "images" r.isOk) ∧
      GetMetrics (ConvertImage c s opts r).state =
        GetMetrics (incrementMetric c "images" r.isOk) ∧
      GetMetrics (ConvertHTML c s opts r).state = GetMetrics c ∧
      GetMetrics (ConvertMarkdown c s opts r).state = GetMetrics c := by
  intro c s imgs opts r
  cases r <;>
    simp [ConvertURL, ConvertImages, ConvertImage, ConvertHTML, ConvertMarkdown,
      GetMetrics, incrementMetric, acquireWorker, releaseWorker, RunResult.isOk]

/-- Claim C4 counterexample: requesting scale 0.05 — outside [0.1, 2.0] — is
not reset to 1.0: ConvertURL passes 0.05 straight to PDF emission, so the
effective scale does not lie in [0.1, 2.0]. -/
theorem scale_clamp_cex :
    (ConvertURL (NewChromeConverter 4) "http://example.com"
        (some { DefaultOptions with scale := 1/20 }) (RunResult.ok [])).task.params.scale =
      some ((1 : ℚ)/20) ∧
    ¬ ((1 : ℚ)/10 ≤ 1/20) := by
  constructor
  · show some (clampScale ((1 : ℚ)/20)) = some ((1 : ℚ)/20)
    norm_num [clampScale]
  · norm_num

/-- Claim C4 (amended): the effective scale ConvertURL passes to PDF emission
is clampScale of the requested scale, which always lies in (0, 2]; requested
scales ≤ 0 or > 2 (such as 5.0 and 0) are silently reset to 1.0, and any
in-range scale — 0 < scale ≤ 2, such as 0.5 — passes through unchanged. -/
theorem scale_clamp (c : ConverterState) (u : String) (o : PDFOptions) (r : RunResult)
    (hpos : 0 < o.scale) (hle : o.scale ≤ 2) :
    (ConvertURL c u (some o) r).task.params.scale = some o.scale ∧
    (∀ (q : ℚ), 0 < clampScale q ∧ clampScale q ≤ 2) ∧
    clampScale 5 = 1 ∧ clampScale 0 = 1 ∧ clampScale (1/2) = 1/2 ∧
    (∀ (c2 : ConverterState) (u2 : String) (o2 : PDFOptions) (r2 : RunResult),
      (ConvertURL c2 u2 (some o2) r2).task.params.scale = some (clampScale o2.scale)) := by
  have hclamp : ∀ (c2 : ConverterState) (u2 : String) (o2 : PDFOptions) (r2 : RunResult),
      (ConvertURL c2 u2 (some o2) r2).task.params.scale = some (clampScale o2.scale) := by
    intro c2 u2 o2 r2
    cases r2 <;> simp [ConvertURL]
  have hrange : ∀ (q : ℚ), 0 < clampScale q ∧ clampScale q ≤ 2 := by
    intro q
    unfold clampScale
    by_cases hq : q ≤ 0 ∨ 2 < q
    · rw [if_pos hq]
      norm_num
    · rw [if_neg hq]
      push_neg at hq
      exact ⟨hq.1, hq.2⟩
  refine ⟨?_, hrange, by norm_num [clampScale], by norm_num [clampScale],
    by norm_num [clampScale], hclamp⟩
  rw [hclamp c u o r]
  have hno : ¬ (o.scale ≤ 0 ∨ 2 < o.scale) := by
    push_neg
    exact ⟨hpos, hle⟩
  simp [clampScale, hno]

/-- Witness for scale_clamp at scale 0.5. -/
theorem scale_clamp_witness :
    (ConvertURL (NewChromeConverter 1) "http://example.com"
        (some { DefaultOptions with scale := 1/2 }) (RunResult.ok [])).task.params.scale =
      some ((1 : ℚ)/2) ∧
    clampScale (1/2) = 1/2 := by
  have h := scale_clamp (NewChromeConverter 1) "http://example.com"
    { DefaultOptions with scale := 1/2 } (RunResult.ok []) (by norm_num [DefaultOptions])
    (by norm_num [DefaultOptions])
  exact ⟨h.1, h.2.2.2.2.1⟩

/-- Claim C5: emitted paper dimensions come from the named page-size table —
Letter is 8.5×11 and A4 is 8.27×11.69 inches — and for every page size
landscape exchanges width and height relative to portrait; ConvertURL passes
exactly these effective dimensions to emission, and Letter with landscape
yields width 11 and height 8.5. -/
theorem page_geometry :
    GetDimensions "Letter" = ⟨85/10, 11⟩ ∧
    GetDimensions "A4" = ⟨827/100, 1169/100⟩ ∧
    (∀ (p : String), effectiveDims p "landscape" =
      ⟨(GetDimensions p).height, (GetDimensions p).width⟩) ∧
    (∀ (p : String), effectiveDims p "portrait" = GetDimensions p) ∧
    (∀ (c : ConverterState) (u : String) (o : PDFOptions) (r : RunResult),
      (ConvertURL c u (some o) r).task.params.paperWidth =
        (effectiveDims o.pageSize o.orientation).width ∧
      (ConvertURL c u (some o) r).task.params.paperHeight =
        (effectiveDims o.pageSize o.orientation).height) ∧
    (ConvertURL (NewChromeConverter 1) "http://example.com"
        (some { DefaultOptions with pageSize := "Letter", orientation := "landscape" })
        (RunResult.ok [])).task.params.paperWidth = 11 ∧
    (ConvertURL (NewChromeConverter 1) "http://example.com"
        (some { DefaultOptions with pageSize := "Letter", orientation := "landscape" })
        (RunResult.ok [])).task.params.paperHeight = 85/10 := by
  refine ⟨by rfl, by rfl, ?_, ?_, ?_, ?_, ?_⟩
  · intro p
    simp [effectiveDims]
  · intro p
    simp [effectiveDims]
  · intro c u o r
    cases r <;> simp [ConvertURL]
  · show (effectiveDims "Letter" "landscape").width = 11
    rfl
  · show (effectiveDims "Letter" "landscape").height = 85/10
    rfl

/-- Claim C6 counterexample: the ConvertHTML pipeline deadline is 60 seconds
and the ConvertURL pipeline deadline is 120 seconds, so the inline-content
deadline is not longer than the remote-URL deadline. -/
theorem timeout_ordering_cex :
    (ConvertHTML (NewChromeConverter 1) "<p>x</p>" none
        (RunResult.ok [])).task.timeoutSeconds = 60 ∧
    (ConvertURL (NewChromeConverter 1) "http://example.com" none
        (RunResult.ok [])).task.timeoutSeconds = 120 ∧
    ¬ ((ConvertURL (NewChromeConverter 1) "http://example.com" none
          (RunResult.ok [])).task.timeoutSeconds <
        (ConvertHTML (NewChromeConverter 1) "<p>x</p>" none
          (RunResult.ok [])).task.timeoutSeconds) := by
  refine ⟨rfl, rfl, ?_⟩
  show ¬ (120 < 60)
  decide

/-- Claim C6 (amended): every conversion pipeline carries a hard wall-clock
deadline on the order of tens of seconds — 60 s for ConvertHTML and 120 s for
ConvertURL and ConvertImages — and the inline-content deadline is shorter than
the remote-URL deadline. -/
theorem timeout_bounds :
    ∀ (c : ConverterState) (s u : String) (imgs : List String) (opts : Option PDFOptions)
      (r : RunResult),
      (ConvertHTML c s opts r).task.timeoutSeconds = 60 ∧
      (ConvertURL c u opts r).task.timeoutSeconds = 120 ∧
      (ConvertImages c imgs opts r).task.timeoutSeconds = 120 ∧
      10 ≤ (ConvertHTML c s opts r).task.timeoutSeconds ∧
      (ConvertHTML c s opts r).task.timeoutSeconds <
        (ConvertURL c u opts r).task.timeoutSeconds := by
  intro c s u imgs opts r
  cases r <;> simp [ConvertHTML, ConvertURL, ConvertImages]

/-- Claim C9: DecodeBase64 is not total — on the 8-character input "aGVsbG8="
(longer than 5, shorter than 100) the prefix-stripping slice encoded[:100]
exceeds the string bounds and the function aborts (modelled as none), instead
of returning bytes or a decode error; on inputs that avoid the slice, such as
the 4-character "TQ==", it decodes normally. -/
theorem decodeBase64_slice_bug :
    DecodeBase64 "aGVsbG8=" = none ∧
    DecodeBase64 "TQ==" = some (Except.ok [77]) ∧
    ("aGVsbG8=" : String).length = 8 := by
  refine ⟨rfl, rfl, rfl⟩

end PdfForge
